import Mathlib

/-
  A shallow embedding of the PDF retrieval core of DoiHive (src/core/hive.go).

  Library calls (goquery selectors, regexp matches, net/url reference
  resolution, HTTP transport, the filesystem) are modelled as oracle inputs
  gathered in an environment; the control flow, retry policy, extraction
  cascade, validation and aggregation logic are translated statement by
  statement from the Go source.
-/

namespace DoiHive

/-- Substring test on character lists, mirroring Go strings.Contains.
An empty pattern is contained in every string. -/
def listContains (s pat : List Char) : Bool :=
  if pat.isPrefixOf s then true
  else
    match s with
    | [] => false
    | _ :: rest => listContains rest pat

/-- strings.Contains for String. -/
def strContains (s pat : String) : Bool :=
  listContains s.toList pat.toList

/-- strings.ToLower (ASCII case folding, which covers every marker the
source inspects). -/
def strToLower (s : String) : String :=
  (s.toList.map Char.toLower).asString

/-- strings.HasPrefix on character lists. -/
def strHasPrefix (s pre : String) : Bool :=
  pre.toList.isPrefixOf s.toList

/-- strings.TrimPrefix(path, "/"): remove one leading slash if present. -/
def trimLeadingSlash (p : String) : String :=
  match p.toList with
  | '/' :: rest => rest.asString
  | _ => p

/-- The filename sanitisation of downloadSinglePDF:
strings.ReplaceAll(doi, "/", "_") then strings.ReplaceAll(.., ":", "_").
Both patterns are single characters, so the replacement is a character map. -/
def sanitizeFilename (doi : String) : String :=
  ((doi.toList.map fun c => if c = '/' then '_' else c).map
    fun c => if c = ':' then '_' else c).asString

/-- Go `data[:idx]` with idx the first index of '#' (strings.Index):
keep everything before the first '#'. -/
def stripFragment (s : String) : String :=
  (s.toList.takeWhile fun c => c ≠ '#').asString

/-- DownloadResult of hive.go (the Duration field is wall-clock time and
is set by the caller; it is not modelled). -/
structure DownloadResult where
  Status : String
  Filename : String
  Size : Int
  DOI : String
  Error : String
deriving Repr, DecidableEq

/-- DownloadError of hive.go (the Time field is wall-clock and not modelled). -/
structure DownloadError where
  URL : String
  DOI : String
  Error : String
deriving Repr, DecidableEq

/-- DownloadStats of hive.go (the three duration fields are wall-clock
times and are not modelled). -/
structure DownloadStats where
  Total : Nat
  Success : Nat
  Skip : Nat
  Failed : Nat
  TotalSize : Int
  Errors : List DownloadError
deriving Repr

/-- One `<object>` element of the parsed page: its `type` and `data`
attributes, if present. -/
structure ObjectElem where
  typeAttr : Option String
  dataAttr : Option String
deriving Repr, DecidableEq

/-- The goquery selector results extractPDFURL reads from the parsed page,
in document order:
`div.download a` (href attribute, if any), all `object` elements,
`iframe[src]` (src attributes), `a[href]` (href attributes), and the
`title` text used by the failure classifier. -/
structure Document where
  downloadAnchors : List (Option String)
  objects : List ObjectElem
  iframeSrcs : List String
  anchorHrefs : List String
  title : String
deriving Repr

/-- Oracle for the two regexp.FindStringSubmatch calls of extractPDFURL on
the raw markup: the first capture group of the download-container-anchor
pattern and of the object-data pattern, when a match exists. -/
structure RawScan where
  downloadMatch : Option String
  objectMatch : Option String
deriving Repr

/-- Oracle for net/url: `baseOk` is whether url.Parse(baseURL) succeeds;
`resolveRef` models url.Parse(ref) followed by
base.ResolveReference(refURL).String() (none when url.Parse(ref) errors). -/
structure Resolver where
  baseOk : Bool
  resolveRef : String → Option String

/-- resolveURL of hive.go: empty ref yields "", an absolute http(s) URL is
returned unchanged, otherwise the reference is parsed and resolved against
the base (parse failure yields ""). -/
def resolveURL (r : Resolver) (ref : String) : String :=
  if ref = "" then ""
  else if strHasPrefix ref "http://" || strHasPrefix ref "https://" then ref
  else
    match r.resolveRef ref with
    | none => ""
    | some s => s

/-- One step of the `div.download a` Each loop of extractPDFURL.
State is (pdfURL, downloadURL): a resolved link containing "/download/"
overwrites downloadURL; otherwise the first resolved link is kept in
pdfURL. -/
def method1Step (r : Resolver) (st : String × String) (href? : Option String) :
    String × String :=
  match href? with
  | none => st
  | some href =>
    let resolved := resolveURL r href
    if resolved = "" then st
    else if strContains resolved "/download/" then (st.1, resolved)
    else if st.1 = "" then (resolved, st.2)
    else st

/-- Strategy 1 of extractPDFURL: anchors inside `div.download`, preferring
a "/download/" link over the first anchor found. -/
def method1 (r : Resolver) (doc : Document) : String :=
  let st := doc.downloadAnchors.foldl (method1Step r) ("", "")
  if st.2 ≠ "" then st.2 else st.1

/-- Strategy 2 of extractPDFURL: first `object[type='application/pdf']`
whose fragment-stripped data attribute resolves to a non-empty URL. -/
def method2 (r : Resolver) : List ObjectElem → String
  | [] => ""
  | o :: rest =>
    if o.typeAttr = some "application/pdf" then
      match o.dataAttr with
      | some data =>
        let resolved := resolveURL r (stripFragment data)
        if resolved ≠ "" then resolved else method2 r rest
      | none => method2 r rest
    else method2 r rest

/-- Strategy 3 of extractPDFURL: first `object[data]` whose
fragment-stripped data attribute resolves to a non-empty URL. -/
def method3 (r : Resolver) : List ObjectElem → String
  | [] => ""
  | o :: rest =>
    match o.dataAttr with
    | some data =>
      let resolved := resolveURL r (stripFragment data)
      if resolved ≠ "" then resolved else method3 r rest
    | none => method3 r rest

/-- Strategy 4 of extractPDFURL: first `iframe[src]` whose resolved src
contains ".pdf" (case-insensitively) or "/download/". -/
def method4 (r : Resolver) : List String → String
  | [] => ""
  | src :: rest =>
    let resolved := resolveURL r src
    if resolved ≠ "" then
      if strContains (strToLower resolved) ".pdf" || strContains resolved "/download/" then
        resolved
      else method4 r rest
    else method4 r rest

/-- Second half of strategy 5: the object-data regexp on the raw markup. -/
def method5b (r : Resolver) (raw : RawScan) : String :=
  match raw.objectMatch with
  | some m =>
    let resolved := resolveURL r (stripFragment m)
    if resolved ≠ "" then resolved else ""
  | none => ""

/-- Strategy 5 of extractPDFURL: regexp scan of the raw markup, download
pattern first, then the object-data pattern. -/
def method5 (r : Resolver) (raw : RawScan) : String :=
  match raw.downloadMatch with
  | some m =>
    let resolved := resolveURL r m
    if resolved ≠ "" then resolved else method5b r raw
  | none => method5b r raw

/-- Strategy 6 of extractPDFURL: first `a[href]` whose lower-cased href
contains "/download/" or ".pdf" and resolves to a non-empty URL. -/
def method6 (r : Resolver) : List String → String
  | [] => ""
  | href :: rest =>
    let lowerHref := strToLower href
    if strContains lowerHref "/download/" || strContains lowerHref ".pdf" then
      let resolved := resolveURL r href
      if resolved ≠ "" then resolved else method6 r rest
    else method6 r rest

/-- extractPDFURL of hive.go: the six-way extraction cascade. Returns ""
when url.Parse(baseURL) fails or no strategy produces a URL. -/
def extractPDFURL (r : Resolver) (doc : Document) (raw : RawScan) : String :=
  if !r.baseOk then ""
  else
    let st := doc.downloadAnchors.foldl (method1Step r) ("", "")
    if st.2 ≠ "" then st.2
    else if st.1 ≠ "" then st.1
    else
      let m2 := method2 r doc.objects
      if m2 ≠ "" then m2
      else
        let m3 := method3 r doc.objects
        if m3 ≠ "" then m3
        else
          let m4 := method4 r doc.iframeSrcs
          if m4 ≠ "" then m4
          else
            let m5 := method5 r raw
            if m5 ≠ "" then m5
            else
              let m6 := method6 r doc.anchorHrefs
              if m6 ≠ "" then m6 else ""

/-- Modelled from the spec: the strategies as an ordered list of results,
in the priority order §4.4 states. -/
def strategyResults (r : Resolver) (doc : Document) (raw : RawScan) : List String :=
  [method1 r doc, method2 r doc.objects, method3 r doc.objects,
   method4 r doc.iframeSrcs, method5 r raw, method6 r doc.anchorHrefs]

/-- Modelled from the spec: return the first non-empty result of an
ordered strategy list. -/
def firstNonEmpty : List String → String
  | [] => ""
  | s :: rest => if s ≠ "" then s else firstNonEmpty rest

/-- Result of one HTTP request attempt: a transport-level error (with the
error text fmt's %v would print) or a response with a status code. -/
inductive HttpResp where
  | err (msg : String)
  | ok (code : Nat)
deriving Repr, DecidableEq

/-- maxRetries of downloadSinglePDF. -/
def maxRetries : Nat := 3

/-- The retry wait in milliseconds before the next attempt:
retryDelay(2s) * (attempt+1) + rand.Intn(2000) ms, with `rnd` the oracle
for the rand.Intn draws indexed by the 0-based attempt number. -/
def retryWait (rnd : Nat → Nat) (attempt : Nat) : Nat :=
  2000 * (attempt + 1) + rnd attempt

/-- Outcome of a retry loop: the 200 response was obtained, or the job
fails with a message. -/
inductive FetchOut where
  | okResp
  | failMsg (msg : String)
deriving Repr, DecidableEq

/-- The page retry loop of downloadSinglePDF, one constructor case per
iteration. `fuel` is maxRetries - attempt (the loop bound), `attempts`
counts requests issued, `waits` the sleeps taken between attempts in
milliseconds. The fuel-0 case is the `resp == nil` check after the loop. -/
def pageLoopAux (resp : Nat → HttpResp) (rnd : Nat → Nat) :
    Nat → Nat → Nat → List Nat → FetchOut × Nat × List Nat
  | 0, _, attempts, waits =>
    (.failMsg "页面请求失败: 已重试 3 次", attempts, waits)
  | fuel + 1, attempt, attempts, waits =>
    match resp attempt with
    | .err msg =>
      if attempt < maxRetries - 1 then
        pageLoopAux resp rnd fuel (attempt + 1) (attempts + 1)
          (waits ++ [retryWait rnd attempt])
      else (.failMsg ("页面请求失败: " ++ msg ++ " (已重试 3 次)"), attempts + 1, waits)
    | .ok code =>
      if code = 403 then
        if attempt < maxRetries - 1 then
          pageLoopAux resp rnd fuel (attempt + 1) (attempts + 1)
            (waits ++ [retryWait rnd attempt])
        else (.failMsg "页面请求失败: HTTP 403 (已重试 3 次)", attempts + 1, waits)
      else if code = 404 then
        if attempt < maxRetries - 1 then
          pageLoopAux resp rnd fuel (attempt + 1) (attempts + 1)
            (waits ++ [retryWait rnd attempt])
        else (.failMsg "页面请求失败: HTTP 404 (页面不存在，已重试 3 次)", attempts + 1, waits)
      else if code ≠ 200 then
        (.failMsg ("页面请求失败: HTTP " ++ toString code), attempts + 1, waits)
      else (.okResp, attempts + 1, waits)

/-- The page retry loop started at attempt 0. -/
def pageLoop (resp : Nat → HttpResp) (rnd : Nat → Nat) : FetchOut × Nat × List Nat :=
  pageLoopAux resp rnd maxRetries 0 0 []

/-- The PDF retry loop of downloadSinglePDF: like the page loop but with
no special 404 branch (a 404 falls into the immediate-failure case). -/
def pdfLoopAux (resp : Nat → HttpResp) (rnd : Nat → Nat) :
    Nat → Nat → Nat → List Nat → FetchOut × Nat × List Nat
  | 0, _, attempts, waits =>
    (.failMsg "PDF 下载失败: 已重试 3 次", attempts, waits)
  | fuel + 1, attempt, attempts, waits =>
    match resp attempt with
    | .err msg =>
      if attempt < maxRetries - 1 then
        pdfLoopAux resp rnd fuel (attempt + 1) (attempts + 1)
          (waits ++ [retryWait rnd attempt])
      else (.failMsg ("PDF 下载失败: " ++ msg ++ " (已重试 3 次)"), attempts + 1, waits)
    | .ok code =>
      if code = 403 then
        if attempt < maxRetries - 1 then
          pdfLoopAux resp rnd fuel (attempt + 1) (attempts + 1)
            (waits ++ [retryWait rnd attempt])
        else (.failMsg "PDF 下载失败: HTTP 403 (已重试 3 次)", attempts + 1, waits)
      else if code ≠ 200 then
        (.failMsg ("PDF 下载失败: HTTP " ++ toString code), attempts + 1, waits)
      else (.okResp, attempts + 1, waits)

/-- The PDF retry loop started at attempt 0. -/
def pdfLoop (resp : Nat → HttpResp) (rnd : Nat → Nat) : FetchOut × Nat × List Nat :=
  pdfLoopAux resp rnd maxRetries 0 0 []

/-- The environment of one downloadSinglePDF job: oracles for every
library and I/O interaction, read in program order.
`urlPath` is url.Parse(pageURL).Path (none on parse error); `preFile` is
the content of the file at the final path before the run (os.Stat
succeeds iff it is some, with Size its length); `pageResp`/`pdfResp` give
the response of each request attempt; `pageRand`/`pdfRand` the
rand.Intn(2000) retry-backoff draws; the Ok booleans are the error
oracles of gzip.NewReader, io.ReadAll, goquery parsing, os.CreateTemp,
io.Copy, os.Open, file.Read and os.Rename; `pdfBody` is the byte sequence
the payload write produces. -/
structure Env where
  urlPath : Option String
  preFile : Option (List Nat)
  pageResp : Nat → HttpResp
  pageRand : Nat → Nat
  pageGzip : Bool
  pageGzipOk : Bool
  pageReadOk : Bool
  parseOk : Bool
  htmlContent : String
  doc : Document
  raw : RawScan
  resolver : Resolver
  pdfResp : Nat → HttpResp
  pdfRand : Nat → Nat
  contentType : String
  tmpCreateOk : Bool
  pdfGzip : Bool
  pdfGzipOk : Bool
  pdfBody : List Nat
  copyOk : Bool
  openOk : Bool
  readHeaderOk : Bool
  renameOk : Bool

/-- Observable outcome of one job: the DownloadResult, the content at the
final deterministic path after the run (none when absent), whether the
temporary file remains, and the request/wait trace of both stages. -/
structure RunOutcome where
  res : DownloadResult
  finalFile : Option (List Nat)
  tmpLeft : Bool
  pageAttempts : Nat
  pdfAttempts : Nat
  pageWaits : List Nat
  pdfWaits : List Nat

/-- A failed outcome: createResult("failed", ..) leaves the final path as
it was, and the deferred os.Remove ensures no temporary file remains. -/
def failOut (env : Env) (filename doi msg : String) (pa : Nat) (pw : List Nat)
    (da : Nat) (dw : List Nat) : RunOutcome :=
  { res := ⟨"failed", filename, 0, doi, msg⟩
    finalFile := env.preFile
    tmpLeft := false
    pageAttempts := pa
    pdfAttempts := da
    pageWaits := pw
    pdfWaits := dw }

/-- The "%PDF" magic bytes. -/
def pdfMagic : List Nat := [37, 80, 68, 70]

/-- The 4-byte header buffer after file.Read: the first bytes of the
written body, zero-padded (the buffer from make is zero-initialised). -/
def headerBytes (body : List Nat) : List Nat :=
  [body.getD 0 0, body.getD 1 0, body.getD 2 0, body.getD 3 0]

/-- Go string(bytes) then strings.ToLower, for the ASCII markers the
sniffing code searches. -/
def bytesToLowerStr (bs : List Nat) : String :=
  (bs.map fun b => Char.toLower (Char.ofNat b)).asString

/-- The refined error message when the magic check fails: sniff the first
512 bytes for HTML markers, then for the gzip magic. -/
def invalidPdfMsg (body : List Nat) : String :=
  let contentStr := bytesToLowerStr (body.take 512)
  let base := "下载的文件不是有效的 PDF 文件"
  if strContains contentStr "<html" || strContains contentStr "<!doctype" then
    if strContains contentStr "403" || strContains contentStr "forbidden" then
      base ++ " (收到 HTML 403 错误页面)"
    else if strContains contentStr "404" || strContains contentStr "not found" then
      base ++ " (收到 HTML 404 错误页面)"
    else if strContains contentStr "captcha" then
      base ++ " (收到验证码页面)"
    else base ++ " (收到 HTML 错误页面而非 PDF)"
  else if body.getD 0 0 = 31 && body.getD 1 0 = 139 then
    base ++ " (文件是 gzip 压缩格式，可能是 HTML 页面)"
  else base

/-- The error-message refinement when extraction yields no URL: inspect
the page title and the lower-cased markup for known markers. -/
def extractFailMsg (env : Env) : String :=
  let title := env.doc.title
  let lowerHtml := strToLower env.htmlContent
  let lowerTitle := strToLower title
  if strContains lowerTitle "article is not available"
      || strContains lowerHtml "article is not available"
      || strContains lowerHtml "not available through sci-hub" then
    "文章在 Sci-Hub 上不可用"
  else if strContains lowerHtml "captcha" then
    "未能从页面中提取 PDF URL (检测到验证码)"
  else if strContains lowerHtml "not found" || strContains lowerHtml "404" then
    "未能从页面中提取 PDF URL (页面未找到)"
  else if title ≠ "" then
    "未能从页面中提取 PDF URL (页面标题: "
      ++ (if title.length > 50 then title.take 50 ++ "..." else title) ++ ")"
  else "未能从页面中提取 PDF URL"

/-- Temp-file write, size check, magic validation and atomic rename: the
tail of downloadSinglePDF after the Content-Type gate passed. -/
def writeStage (env : Env) (pdfFilename doi : String) (pa : Nat) (pw : List Nat)
    (da : Nat) (dw : List Nat) : RunOutcome :=
  if !env.tmpCreateOk then
    failOut env pdfFilename doi "创建临时文件失败" pa pw da dw
  else if env.pdfGzip && !env.pdfGzipOk then
    failOut env pdfFilename doi "PDF 解压缩失败" pa pw da dw
  else if !env.copyOk then
    failOut env pdfFilename doi "写入文件失败" pa pw da dw
  else if env.pdfBody.length = 0 then
    failOut env pdfFilename doi "下载的文件大小为 0" pa pw da dw
  else if !env.openOk then
    failOut env pdfFilename doi "打开文件失败" pa pw da dw
  else if !env.readHeaderOk then
    failOut env pdfFilename doi "读取文件头失败" pa pw da dw
  else if headerBytes env.pdfBody ≠ pdfMagic then
    failOut env pdfFilename doi (invalidPdfMsg env.pdfBody) pa pw da dw
  else if !env.renameOk then
    failOut env pdfFilename doi "移动文件失败" pa pw da dw
  else
    { res := ⟨"success", pdfFilename, (env.pdfBody.length : Int), doi, ""⟩
      finalFile := some env.pdfBody
      tmpLeft := false
      pageAttempts := pa
      pdfAttempts := da
      pageWaits := pw
      pdfWaits := dw }

/-- The Content-Type gate of downloadSinglePDF: a declared type that is
neither pdf nor octet-stream fails only when it is html or text;
any other declared type falls through to the write stage. -/
def validateStage (env : Env) (pdfFilename doi : String) (pa : Nat) (pw : List Nat)
    (da : Nat) (dw : List Nat) : RunOutcome :=
  let ct := strToLower env.contentType
  if env.contentType ≠ "" && !strContains ct "pdf"
      && !strContains ct "application/octet-stream" then
    if strContains ct "html" || strContains ct "text" then
      failOut env pdfFilename doi
        ("PDF 下载失败: 服务器返回 HTML 而非 PDF (Content-Type: " ++ env.contentType ++ ")")
        pa pw da dw
    else writeStage env pdfFilename doi pa pw da dw
  else writeStage env pdfFilename doi pa pw da dw

/-- The payload stage: retry loop, then Content-Type gate and validation. -/
def pdfStage (env : Env) (pdfFilename doi : String) (pa : Nat) (pw : List Nat) :
    RunOutcome :=
  match pdfLoop env.pdfResp env.pdfRand with
  | (.failMsg m, da, dw) => failOut env pdfFilename doi m pa pw da dw
  | (.okResp, da, dw) => validateStage env pdfFilename doi pa pw da dw

/-- After the page response: gzip handling, body read, parse, extraction
(with failure classification), then the payload stage. -/
def pageStage2 (env : Env) (pdfFilename doi : String) (pa : Nat) (pw : List Nat) :
    RunOutcome :=
  if env.pageGzip && !env.pageGzipOk then
    failOut env pdfFilename doi "解压缩失败" pa pw 0 []
  else if !env.pageReadOk then
    failOut env pdfFilename doi "读取页面内容失败" pa pw 0 []
  else if !env.parseOk then
    failOut env pdfFilename doi "HTML 解析失败" pa pw 0 []
  else if extractPDFURL env.resolver env.doc env.raw = "" then
    failOut env pdfFilename doi (extractFailMsg env) pa pw 0 []
  else pdfStage env pdfFilename doi pa pw

/-- downloadSinglePDF of hive.go over the oracle environment: DOI
derivation and filename sanitisation, skip check, page retrieval with
retries, extraction, payload retrieval with retries, validation and
atomic commit. -/
def downloadSinglePDF (env : Env) : RunOutcome :=
  match env.urlPath with
  | none => failOut env "" "" "URL 解析失败" 0 [] 0 []
  | some path =>
    let doi := trimLeadingSlash path
    let pdfFilename := sanitizeFilename doi ++ ".pdf"
    match env.preFile with
    | some content =>
      { res := ⟨"skip", pdfFilename, (content.length : Int), doi, ""⟩
        finalFile := env.preFile
        tmpLeft := false
        pageAttempts := 0
        pdfAttempts := 0
        pageWaits := []
        pdfWaits := [] }
    | none =>
      match pageLoop env.pageResp env.pageRand with
      | (.failMsg m, pa, pw) => failOut env pdfFilename doi m pa pw 0 []
      | (.okResp, pa, pw) => pageStage2 env pdfFilename doi pa pw

/-- One step of the result-collection loop of DownloadPDFs (the duration
bookkeeping is wall-clock time and not modelled). -/
def collectStep (stats : DownloadStats) (r : DownloadResult) : DownloadStats :=
  if r.Status = "success" then
    { stats with Success := stats.Success + 1, TotalSize := stats.TotalSize + r.Size }
  else if r.Status = "skip" then
    { stats with Skip := stats.Skip + 1 }
  else if r.Status = "failed" then
    { stats with
        Failed := stats.Failed + 1
        Errors := stats.Errors ++ [⟨"https://sci-hub.se/" ++ r.DOI, r.DOI, r.Error⟩] }
  else stats

/-- The statistics object DownloadPDFs initialises before dispatch. -/
def initStats (total : Nat) : DownloadStats :=
  { Total := total, Success := 0, Skip := 0, Failed := 0, TotalSize := 0, Errors := [] }

/-- DownloadPDFs of hive.go: abort with an error when the output directory
cannot be created, otherwise fold the completion-ordered result stream
into the statistics. `mkdirOk` is the os.MkdirAll oracle, `maxWorkers`
the worker count (it only sizes the transport pool and the pool of
goroutines; with at least one worker every job's result reaches the
collection loop), and `results` the outcomes in completion order. -/
def DownloadPDFs (mkdirOk : Bool) (maxWorkers : Nat) (urls : List String)
    (results : List DownloadResult) : Except String DownloadStats :=
  if mkdirOk then
    Except.ok (results.foldl collectStep (initStats urls.length))
  else Except.error "无法创建 PDF 目录"

/-- Outcome shape of the write/validate tail: either a failure that leaves
the final path untouched, or a success that commits a validated body. -/
lemma writeStage_char (env : Env) (fn doi : String) (pa : Nat) (pw : List Nat)
    (da : Nat) (dw : List Nat) :
    ((writeStage env fn doi pa pw da dw).res.Status = "failed"
      ∧ (writeStage env fn doi pa pw da dw).finalFile = env.preFile
      ∧ (writeStage env fn doi pa pw da dw).tmpLeft = false)
    ∨ ((writeStage env fn doi pa pw da dw).res.Status = "success"
      ∧ (writeStage env fn doi pa pw da dw).finalFile = some env.pdfBody
      ∧ (writeStage env fn doi pa pw da dw).tmpLeft = false
      ∧ headerBytes env.pdfBody = pdfMagic
      ∧ env.pdfBody.length ≠ 0) := by
  unfold writeStage
  split_ifs with h1 h2 h3 h4 h5 h6 h7 h8 <;> simp_all [failOut]

/-- The Content-Type gate preserves the outcome shape. -/
lemma validateStage_char (env : Env) (fn doi : String) (pa : Nat) (pw : List Nat)
    (da : Nat) (dw : List Nat) :
    ((validateStage env fn doi pa pw da dw).res.Status = "failed"
      ∧ (validateStage env fn doi pa pw da dw).finalFile = env.preFile
      ∧ (validateStage env fn doi pa pw da dw).tmpLeft = false)
    ∨ ((validateStage env fn doi pa pw da dw).res.Status = "success"
      ∧ (validateStage env fn doi pa pw da dw).finalFile = some env.pdfBody
      ∧ (validateStage env fn doi pa pw da dw).tmpLeft = false
      ∧ headerBytes env.pdfBody = pdfMagic
      ∧ env.pdfBody.length ≠ 0) := by
  simp only [validateStage]
  split_ifs with h1 h2
  · simp [failOut]
  · exact writeStage_char env fn doi pa pw da dw
  · exact writeStage_char env fn doi pa pw da dw

/-- The payload stage preserves the outcome shape. -/
lemma pdfStage_char (env : Env) (fn doi : String) (pa : Nat) (pw : List Nat) :
    ((pdfStage env fn doi pa pw).res.Status = "failed"
      ∧ (pdfStage env fn doi pa pw).finalFile = env.preFile
      ∧ (pdfStage env fn doi pa pw).tmpLeft = false)
    ∨ ((pdfStage env fn doi pa pw).res.Status = "success"
      ∧ (pdfStage env fn doi pa pw).finalFile = some env.pdfBody
      ∧ (pdfStage env fn doi pa pw).tmpLeft = false
      ∧ headerBytes env.pdfBody = pdfMagic
      ∧ env.pdfBody.length ≠ 0) := by
  unfold pdfStage
  rcases h : pdfLoop env.pdfResp env.pdfRand with ⟨fo, da, dw⟩
  cases fo with
  | okResp => exact validateStage_char env fn doi pa pw da dw
  | failMsg m => simp [failOut]

/-- Everything after a successful page fetch preserves the outcome shape. -/
lemma pageStage2_char (env : Env) (fn doi : String) (pa : Nat) (pw : List Nat) :
    ((pageStage2 env fn doi pa pw).res.Status = "failed"
      ∧ (pageStage2 env fn doi pa pw).finalFile = env.preFile
      ∧ (pageStage2 env fn doi pa pw).tmpLeft = false)
    ∨ ((pageStage2 env fn doi pa pw).res.Status = "success"
      ∧ (pageStage2 env fn doi pa pw).finalFile = some env.pdfBody
      ∧ (pageStage2 env fn doi pa pw).tmpLeft = false
      ∧ headerBytes env.pdfBody = pdfMagic
      ∧ env.pdfBody.length ≠ 0) := by
  unfold pageStage2
  split_ifs with h1 h2 h3 h4
  · simp [failOut]
  · simp [failOut]
  · simp [failOut]
  · simp [failOut]
  · exact pdfStage_char env fn doi pa pw

/-- Shape of every run: a failure leaves the final path as it was; a skip
requires a pre-existing file and leaves it; a success commits exactly the
validated body. In every case the temporary file is gone. -/
lemma run_char (env : Env) :
    ((downloadSinglePDF env).res.Status = "failed"
      ∧ (downloadSinglePDF env).finalFile = env.preFile
      ∧ (downloadSinglePDF env).tmpLeft = false)
    ∨ ((downloadSinglePDF env).res.Status = "skip"
      ∧ (downloadSinglePDF env).finalFile = env.preFile
      ∧ (downloadSinglePDF env).tmpLeft = false
      ∧ env.preFile.isSome = true)
    ∨ ((downloadSinglePDF env).res.Status = "success"
      ∧ (downloadSinglePDF env).finalFile = some env.pdfBody
      ∧ (downloadSinglePDF env).tmpLeft = false
      ∧ headerBytes env.pdfBody = pdfMagic
      ∧ env.pdfBody.length ≠ 0) := by
  unfold downloadSinglePDF
  cases hu : env.urlPath with
  | none => simp [failOut]
  | some path =>
    cases hp : env.preFile with
    | some content => simp [hp]
    | none =>
      rcases hl : pageLoop env.pageResp env.pageRand with ⟨fo, pa, pw⟩
      cases fo with
      | okResp =>
        dsimp only
        rcases pageStage2_char env (sanitizeFilename (trimLeadingSlash path) ++ ".pdf")
            (trimLeadingSlash path) pa pw with ⟨a, b, c⟩ | ⟨a, b, c, d, e⟩
        · exact Or.inl ⟨a, by rw [b, hp], c⟩
        · exact Or.inr (Or.inr ⟨a, b, c, d, e⟩)
      | failMsg m => simp [failOut, hp]

/-- The status of every run is one of success, skip and failed. -/
lemma run_status_cases (env : Env) :
    (downloadSinglePDF env).res.Status = "success"
    ∨ (downloadSinglePDF env).res.Status = "skip"
    ∨ (downloadSinglePDF env).res.Status = "failed" := by
  rcases run_char env with ⟨a, -, -⟩ | ⟨a, -, -, -⟩ | ⟨a, -, -, -, -⟩
  · exact Or.inr (Or.inr a)
  · exact Or.inr (Or.inl a)
  · exact Or.inl a

/-- A page endpoint answering HTTP 403 on every attempt: exactly 3
requests, the 403 failure message, and the two escalating backoff waits. -/
lemma pageLoop_all403 (resp : Nat → HttpResp) (rnd : Nat → Nat)
    (h : ∀ n, resp n = HttpResp.ok 403) :
    pageLoop resp rnd =
      (FetchOut.failMsg "页面请求失败: HTTP 403 (已重试 3 次)", 3,
        [2000 * 1 + rnd 0, 2000 * 2 + rnd 1]) := by
  simp [pageLoop, pageLoopAux, h, retryWait, maxRetries]

/-- A page endpoint answering HTTP 404 on every attempt: exactly 3
requests before the terminal missing-page failure. -/
lemma pageLoop_all404 (resp : Nat → HttpResp) (rnd : Nat → Nat)
    (h : ∀ n, resp n = HttpResp.ok 404) :
    pageLoop resp rnd =
      (FetchOut.failMsg "页面请求失败: HTTP 404 (页面不存在，已重试 3 次)", 3,
        [2000 * 1 + rnd 0, 2000 * 2 + rnd 1]) := by
  simp [pageLoop, pageLoopAux, h, retryWait, maxRetries]

/-- A page endpoint answering 200 at once: one request, no waits. -/
lemma pageLoop_ok (resp : Nat → HttpResp) (rnd : Nat → Nat)
    (h : resp 0 = HttpResp.ok 200) :
    pageLoop resp rnd = (FetchOut.okResp, 1, []) := by
  simp [pageLoop, pageLoopAux, h, maxRetries]

/-- A payload endpoint answering HTTP 403 on every attempt: exactly 3
requests, the 403 failure message, and the two escalating backoff waits. -/
lemma pdfLoop_all403 (resp : Nat → HttpResp) (rnd : Nat → Nat)
    (h : ∀ n, resp n = HttpResp.ok 403) :
    pdfLoop resp rnd =
      (FetchOut.failMsg "PDF 下载失败: HTTP 403 (已重试 3 次)", 3,
        [2000 * 1 + rnd 0, 2000 * 2 + rnd 1]) := by
  simp [pdfLoop, pdfLoopAux, h, retryWait, maxRetries]

lemma collectStep_Total (s : DownloadStats) (r : DownloadResult) :
    (collectStep s r).Total = s.Total := by
  unfold collectStep; split_ifs <;> rfl

lemma collectStep_Success (s : DownloadStats) (r : DownloadResult) :
    (collectStep s r).Success = s.Success + (if r.Status = "success" then 1 else 0) := by
  unfold collectStep; split_ifs <;> simp_all

lemma collectStep_Skip (s : DownloadStats) (r : DownloadResult) :
    (collectStep s r).Skip = s.Skip + (if r.Status = "skip" then 1 else 0) := by
  unfold collectStep; split_ifs <;> simp_all

lemma collectStep_Failed (s : DownloadStats) (r : DownloadResult) :
    (collectStep s r).Failed = s.Failed + (if r.Status = "failed" then 1 else 0) := by
  unfold collectStep; split_ifs <;> simp_all

lemma collectStep_TotalSize (s : DownloadStats) (r : DownloadResult) :
    (collectStep s r).TotalSize = s.TotalSize + (if r.Status = "success" then r.Size else 0) := by
  unfold collectStep; split_ifs <;> simp_all

lemma collectStep_ErrorsLen (s : DownloadStats) (r : DownloadResult) :
    (collectStep s r).Errors.length
      = s.Errors.length + (if r.Status = "failed" then 1 else 0) := by
  unfold collectStep; split_ifs <;> simp_all

/-- What the collection fold of DownloadPDFs computes, field by field. -/
lemma collect_foldl (l : List DownloadResult) (s : DownloadStats) :
    (l.foldl collectStep s).Total = s.Total
    ∧ (l.foldl collectStep s).Success
        = s.Success + l.countP (fun r => r.Status == "success")
    ∧ (l.foldl collectStep s).Skip
        = s.Skip + l.countP (fun r => r.Status == "skip")
    ∧ (l.foldl collectStep s).Failed
        = s.Failed + l.countP (fun r => r.Status == "failed")
    ∧ (l.foldl collectStep s).TotalSize
        = s.TotalSize + ((l.filter fun r => r.Status == "success").map fun r => r.Size).sum
    ∧ (l.foldl collectStep s).Errors.length
        = s.Errors.length + l.countP (fun r => r.Status == "failed") := by
  induction l generalizing s with
  | nil => simp
  | cons a l ih =>
    rw [List.foldl_cons]
    obtain ⟨t, su, sk, f, ts, e⟩ := ih (collectStep s a)
    rw [t, su, sk, f, ts, e, collectStep_Total, collectStep_Success, collectStep_Skip,
      collectStep_Failed, collectStep_TotalSize, collectStep_ErrorsLen]
    by_cases h1 : a.Status = "success" <;> by_cases h2 : a.Status = "skip"
      <;> by_cases h3 : a.Status = "failed"
      <;> simp_all [List.countP_cons, List.filter_cons]
      <;> omega

/-- When every status is one of the three classified ones, the three
counters partition the list. -/
lemma countP_trichotomy (l : List DownloadResult)
    (h : ∀ r ∈ l, r.Status = "success" ∨ r.Status = "skip" ∨ r.Status = "failed") :
    l.countP (fun r => r.Status == "success") + l.countP (fun r => r.Status == "skip")
      + l.countP (fun r => r.Status == "failed") = l.length := by
  induction l with
  | nil => simp
  | cons a l ih =>
    have ha := h a (by simp)
    have ih2 := ih fun r hr => h r (by simp [hr])
    rcases ha with h1 | h1 | h1 <;> simp [List.countP_cons, h1] <;> omega

/-- The first anchor of the download container whose href resolves to a
non-empty URL: the anchor the Each loop keeps in pdfURL when it carries
no "/download/" link. -/
def firstResolvable (r : Resolver) : List (Option String) → Option String
  | [] => none
  | none :: rest => firstResolvable r rest
  | some href :: rest =>
    if resolveURL r href = "" then firstResolvable r rest else some href

lemma firstResolvable_spec (r : Resolver) (l : List (Option String)) (href : String)
    (h : firstResolvable r l = some href) :
    some href ∈ l ∧ resolveURL r href ≠ "" := by
  induction l with
  | nil => simp [firstResolvable] at h
  | cons a l ih =>
    match a with
    | none =>
      have := ih (by simpa [firstResolvable] using h)
      exact ⟨List.mem_cons_of_mem _ this.1, this.2⟩
    | some x =>
      by_cases hx : resolveURL r x = ""
      · have := ih (by simpa [firstResolvable, hx] using h)
        exact ⟨List.mem_cons_of_mem _ this.1, this.2⟩
      · have hx2 : some x = some href := by simpa [firstResolvable, hx] using h
        obtain rfl : x = href := by injection hx2
        exact ⟨by simp, hx⟩

/-- The downloadURL slot after the Each loop is either untouched or the
resolution of one of the container anchors, containing "/download/". -/
lemma fold_dl_provenance (r : Resolver) (l : List (Option String)) (st : String × String) :
    (l.foldl (method1Step r) st).2 = st.2
    ∨ ∃ href, some href ∈ l ∧ (l.foldl (method1Step r) st).2 = resolveURL r href
        ∧ strContains (resolveURL r href) "/download/" = true := by
  induction l generalizing st with
  | nil => exact Or.inl rfl
  | cons a l ih =>
    rw [List.foldl_cons]
    rcases ih (method1Step r st a) with h | ⟨href, hmem, heq, hdl⟩
    · rw [h]
      match a with
      | none => exact Or.inl rfl
      | some href =>
        by_cases hres : resolveURL r href = ""
        · exact Or.inl (by simp [method1Step, hres])
        · by_cases hdl : strContains (resolveURL r href) "/download/" = true
          · exact Or.inr ⟨href, by simp, by simp [method1Step, hres, hdl], hdl⟩
          · by_cases hst : st.1 = ""
            · exact Or.inl (by simp [method1Step, hres, hdl, hst])
            · exact Or.inl (by simp [method1Step, hres, hdl, hst])
    · exact Or.inr ⟨href, List.mem_cons_of_mem _ hmem, heq, hdl⟩

/-- A non-empty downloadURL slot survives the rest of the Each loop. -/
lemma fold_dl_stable (r : Resolver) (l : List (Option String)) (st : String × String)
    (h : st.2 ≠ "") : (l.foldl (method1Step r) st).2 ≠ "" := by
  induction l generalizing st with
  | nil => exact h
  | cons a l ih =>
    rw [List.foldl_cons]
    refine ih (method1Step r st a) ?_
    match a with
    | none => exact h
    | some href =>
      by_cases hres : resolveURL r href = ""
      · simpa [method1Step, hres] using h
      · by_cases hdl : strContains (resolveURL r href) "/download/" = true
        · simp [method1Step, hres, hdl, hres]
        · by_cases hst : st.1 = "" <;> simpa [method1Step, hres, hdl, hst] using h

/-- An anchor resolving to a "/download/" link forces a non-empty
downloadURL slot. -/
lemma fold_dl_exists (r : Resolver) (l : List (Option String)) (href : String)
    (hres : resolveURL r href ≠ "")
    (hdl : strContains (resolveURL r href) "/download/" = true) :
    ∀ st : String × String, some href ∈ l → (l.foldl (method1Step r) st).2 ≠ "" := by
  induction l with
  | nil => intro st hmem; simp at hmem
  | cons a l ih =>
    intro st hmem
    rw [List.foldl_cons]
    rcases List.mem_cons.mp hmem with heq | hmem2
    · have ha : a = some href := heq.symm
      subst ha
      refine fold_dl_stable r l (method1Step r st (some href)) ?_
      simpa [method1Step, hres, hdl] using hres
    · exact ih (method1Step r st a) hmem2

/-- When no container anchor resolves to a "/download/" link, the
downloadURL slot stays empty and the pdfURL slot holds the first
resolvable anchor. -/
lemma fold_no_dl (r : Resolver) (l : List (Option String)) :
    ∀ st : String × String,
    (∀ href, some href ∈ l → strContains (resolveURL r href) "/download/" = false) →
    (l.foldl (method1Step r) st).2 = st.2
    ∧ (st.1 ≠ "" → (l.foldl (method1Step r) st).1 = st.1)
    ∧ (st.1 = "" → (l.foldl (method1Step r) st).1 =
        (match firstResolvable r l with
         | some href => resolveURL r href
         | none => "")) := by
  induction l with
  | nil => exact fun st _ => ⟨rfl, fun _ => rfl, fun h => h⟩
  | cons a l ih =>
    intro st hnone
    rw [List.foldl_cons]
    have hnone2 : ∀ href, some href ∈ l → strContains (resolveURL r href) "/download/" = false :=
      fun href hm => hnone href (List.mem_cons_of_mem _ hm)
    match a with
    | none =>
      obtain ⟨i1, i2, i3⟩ := ih st hnone2
      have hstep : method1Step r st none = st := rfl
      rw [hstep]
      exact ⟨i1, i2, fun h => by rw [i3 h]; rfl⟩
    | some href =>
      by_cases hres : resolveURL r href = ""
      · have hstep : method1Step r st (some href) = st := by
          simp [method1Step, hres]
        rw [hstep]
        obtain ⟨i1, i2, i3⟩ := ih st hnone2
        exact ⟨i1, i2, fun h => by rw [i3 h]; simp [firstResolvable, hres]⟩
      · have hdl := hnone href (by simp)
        by_cases hst : st.1 = ""
        · have hstep : method1Step r st (some href) = (resolveURL r href, st.2) := by
            simp [method1Step, hres, hdl, hst]
          rw [hstep]
          obtain ⟨i1, i2, i3⟩ := ih (resolveURL r href, st.2) hnone2
          refine ⟨i1, ?_, ?_⟩
          · intro h; exact absurd hst h
          · intro _
            rw [i2 (by simpa using hres)]
            simp [firstResolvable, hres]
        · have hstep : method1Step r st (some href) = st := by
            simp [method1Step, hres, hdl, hst]
          rw [hstep]
          obtain ⟨i1, i2, i3⟩ := ih st hnone2
          exact ⟨i1, i2, fun h => absurd h hst⟩

/-- When the Each loop produced a downloadURL, extractPDFURL returns it. -/
lemma extract_eq_dl (r : Resolver) (doc : Document) (raw : RawScan)
    (hb : r.baseOk = true)
    (hd : (doc.downloadAnchors.foldl (method1Step r) ("", "")).2 ≠ "") :
    extractPDFURL r doc raw = (doc.downloadAnchors.foldl (method1Step r) ("", "")).2 := by
  simp [extractPDFURL, hb, hd]

/-- When no downloadURL was produced but a pdfURL was, extractPDFURL
returns the pdfURL. -/
lemma extract_eq_p (r : Resolver) (doc : Document) (raw : RawScan)
    (hb : r.baseOk = true)
    (hd : (doc.downloadAnchors.foldl (method1Step r) ("", "")).2 = "")
    (hp : (doc.downloadAnchors.foldl (method1Step r) ("", "")).1 ≠ "") :
    extractPDFURL r doc raw = (doc.downloadAnchors.foldl (method1Step r) ("", "")).1 := by
  simp [extractPDFURL, hb, hd, hp]

/-- C1: with no pre-existing file at the final deterministic path, a file
appears there only when the run succeeds, and then it is exactly the
downloaded body, which passed validation (non-zero length and the %PDF
magic); on any failure no file exists at the final path and the temporary
file is gone, so a later skip check never treats a failed job as done. -/
theorem C1_atomic_commit (env : Env) (hf : env.preFile = none) :
    ((downloadSinglePDF env).res.Status = "success" →
      (downloadSinglePDF env).finalFile = some env.pdfBody
      ∧ env.pdfBody.length ≠ 0
      ∧ headerBytes env.pdfBody = pdfMagic)
    ∧ ((downloadSinglePDF env).res.Status ≠ "success" →
      (downloadSinglePDF env).finalFile = none
      ∧ (downloadSinglePDF env).tmpLeft = false) := by
  rcases run_char env with ⟨a, b, c⟩ | ⟨-, -, -, hs⟩ | ⟨a, b, c, d, e⟩
  · refine ⟨fun h => ?_, fun _ => ⟨by rw [b, hf], c⟩⟩
    rw [a] at h; simp at h
  · rw [hf] at hs; simp at hs
  · refine ⟨fun _ => ⟨b, e, d⟩, fun h => absurd a h⟩

/-- C6: whenever the body the payload write would produce is zero-length
or fails the %PDF magic check, a run over an absent output file can never
report success; it reports failed (whatever the declared content type,
which at most changes the failure reason). -/
theorem C6_integrity_gate (env : Env) (hf : env.preFile = none)
    (hbad : env.pdfBody = [] ∨ headerBytes env.pdfBody ≠ pdfMagic) :
    (downloadSinglePDF env).res.Status = "failed"
    ∧ (downloadSinglePDF env).res.Status ≠ "success" := by
  rcases run_char env with ⟨a, -, -⟩ | ⟨-, -, -, hs⟩ | ⟨-, -, -, hmg, hlen⟩
  · exact ⟨a, by rw [a]; simp⟩
  · rw [hf] at hs; simp at hs
  · rcases hbad with hb | hb
    · exact absurd (by rw [hb]; rfl) hlen
    · exact absurd hmg hb

/-- C7: the output filename is the identifier with every '/' and ':'
replaced by '_' plus ".pdf" (so identifier 10.1000/xyz123 yields
10.1000_xyz123.pdf), and a job whose final path already holds a file
reports skip with the existing file's size and issues no request. -/
theorem C7_skip_no_network (env : Env) (p : String) (content : List Nat)
    (hu : env.urlPath = some p) (hf : env.preFile = some content) :
    (downloadSinglePDF env).res.Status = "skip"
    ∧ (downloadSinglePDF env).res.Size = (content.length : Int)
    ∧ (downloadSinglePDF env).res.Filename
        = sanitizeFilename (trimLeadingSlash p) ++ ".pdf"
    ∧ (downloadSinglePDF env).pageAttempts = 0
    ∧ (downloadSinglePDF env).pdfAttempts = 0
    ∧ sanitizeFilename (trimLeadingSlash "/10.1000/xyz123") ++ ".pdf"
        = "10.1000_xyz123.pdf" := by
  refine ⟨?_, ?_, ?_, ?_, ?_, by decide⟩ <;> simp [downloadSinglePDF, hu, hf]

/-- C4: a page endpoint answering HTTP 404 on every attempt makes the
code issue exactly 3 request attempts (not 2 as specified: the 404 branch
uses the same attempt bound as 403, contradicting its own retry-once
comment) before failing with the missing-page reason. -/
theorem C4_page404_three_attempts (env : Env) (p : String)
    (hu : env.urlPath = some p) (hf : env.preFile = none)
    (hr : ∀ n, env.pageResp n = HttpResp.ok 404) :
    (downloadSinglePDF env).pageAttempts = 3
    ∧ (downloadSinglePDF env).pageAttempts ≠ 2
    ∧ (downloadSinglePDF env).res.Status = "failed"
    ∧ (downloadSinglePDF env).res.Error
        = "页面请求失败: HTTP 404 (页面不存在，已重试 3 次)" := by
  have hl := pageLoop_all404 env.pageResp env.pageRand hr
  refine ⟨?_, ?_, ?_, ?_⟩ <;> simp [downloadSinglePDF, hu, hf, hl, failOut]

/-- C3: a page endpoint answering HTTP 403 on every attempt makes exactly
3 page requests and then the job fails with a reason naming HTTP 403 and
the attempt count, the waits between attempts being 2s*attempt + rand[0,2s);
and the same holds for the payload endpoint once a page and an extracted
URL were obtained. -/
theorem C3_retry_ceiling_403 (env1 env2 : Env) (p1 p2 : String)
    (h1u : env1.urlPath = some p1) (h1f : env1.preFile = none)
    (h1r : ∀ n, env1.pageResp n = HttpResp.ok 403)
    (h1w : ∀ n, env1.pageRand n < 2000)
    (h2u : env2.urlPath = some p2) (h2f : env2.preFile = none)
    (h2p : env2.pageResp 0 = HttpResp.ok 200)
    (h2g : env2.pageGzip = false) (h2rd : env2.pageReadOk = true)
    (h2ps : env2.parseOk = true)
    (h2x : extractPDFURL env2.resolver env2.doc env2.raw ≠ "")
    (h2r : ∀ n, env2.pdfResp n = HttpResp.ok 403)
    (h2w : ∀ n, env2.pdfRand n < 2000) :
    ((downloadSinglePDF env1).pageAttempts = 3
      ∧ (downloadSinglePDF env1).res.Status = "failed"
      ∧ (downloadSinglePDF env1).res.Error = "页面请求失败: HTTP 403 (已重试 3 次)"
      ∧ (downloadSinglePDF env1).pageWaits
          = [2000 * 1 + env1.pageRand 0, 2000 * 2 + env1.pageRand 1]
      ∧ env1.pageRand 0 < 2000 ∧ env1.pageRand 1 < 2000)
    ∧ ((downloadSinglePDF env2).pdfAttempts = 3
      ∧ (downloadSinglePDF env2).res.Status = "failed"
      ∧ (downloadSinglePDF env2).res.Error = "PDF 下载失败: HTTP 403 (已重试 3 次)"
      ∧ (downloadSinglePDF env2).pdfWaits
          = [2000 * 1 + env2.pdfRand 0, 2000 * 2 + env2.pdfRand 1]
      ∧ env2.pdfRand 0 < 2000 ∧ env2.pdfRand 1 < 2000) := by
  constructor
  · have hl := pageLoop_all403 env1.pageResp env1.pageRand h1r
    refine ⟨?_, ?_, ?_, ?_, h1w 0, h1w 1⟩ <;>
      simp [downloadSinglePDF, h1u, h1f, hl, failOut]
  · have hl := pageLoop_ok env2.pageResp env2.pageRand h2p
    have hd := pdfLoop_all403 env2.pdfResp env2.pdfRand h2r
    refine ⟨?_, ?_, ?_, ?_, h2w 0, h2w 1⟩ <;>
      simp [downloadSinglePDF, h2u, h2f, hl, pageStage2, h2g, h2rd, h2ps, h2x,
        pdfStage, hd, failOut]

/-- C2: when some anchor of the download container resolves to a URL
containing "/download/", the extractor returns such a container link
(never a generic anchor); when no container anchor carries "/download/",
the first resolvable container anchor is returned instead. -/
theorem C2_download_container_precedence :
    (∀ (r : Resolver) (doc : Document) (raw : RawScan) (href : String),
      r.baseOk = true →
      some href ∈ doc.downloadAnchors →
      resolveURL r href ≠ "" →
      strContains (resolveURL r href) "/download/" = true →
      ∃ h2, some h2 ∈ doc.downloadAnchors
        ∧ extractPDFURL r doc raw = resolveURL r h2
        ∧ strContains (extractPDFURL r doc raw) "/download/" = true)
    ∧ (∀ (r : Resolver) (doc : Document) (raw : RawScan) (h1 : String),
      r.baseOk = true →
      (∀ href, some href ∈ doc.downloadAnchors →
        strContains (resolveURL r href) "/download/" = false) →
      firstResolvable r doc.downloadAnchors = some h1 →
      extractPDFURL r doc raw = resolveURL r h1) := by
  constructor
  · intro r doc raw href hb hmem hres hdl
    have hd := fold_dl_exists r doc.downloadAnchors href hres hdl ("", "") hmem
    have hext := extract_eq_dl r doc raw hb hd
    rcases fold_dl_provenance r doc.downloadAnchors ("", "") with h | ⟨h2, hm2, he2, hd2⟩
    · exact absurd h hd
    · exact ⟨h2, hm2, by rw [hext, he2], by rw [hext, he2]; exact hd2⟩
  · intro r doc raw h1 hb hnone hfst
    obtain ⟨i1, -, i3⟩ := fold_no_dl r doc.downloadAnchors ("", "") hnone
    obtain ⟨-, hres1⟩ := firstResolvable_spec r doc.downloadAnchors h1 hfst
    have hp : (doc.downloadAnchors.foldl (method1Step r) ("", "")).1 = resolveURL r h1 := by
      rw [i3 rfl, hfst]
    rw [extract_eq_p r doc raw hb i1 (by rw [hp]; exact hres1), hp]

/-- C5: with a parseable base URL, the extractor equals the first
non-empty result of the six strategies evaluated in their priority
order; a later strategy's value is returned only when every earlier one
is empty. -/
theorem C5_strict_strategy_order (r : Resolver) (doc : Document) (raw : RawScan)
    (hb : r.baseOk = true) :
    extractPDFURL r doc raw = firstNonEmpty (strategyResults r doc raw) := by
  simp only [extractPDFURL, strategyResults, firstNonEmpty, method1, hb,
    Bool.not_true, Bool.false_eq_true, if_false]
  split_ifs <;> simp_all

/-- C8: DownloadPDFs yields an error exactly when the output directory
cannot be created — a constant error independent of any job result, so no
job outcome can cause it; otherwise it returns statistics in which every
failed job is counted and produces exactly one error record, whatever the
mix of results. -/
theorem C8_error_only_mkdir (W : Nat) (urls : List String)
    (results : List DownloadResult) :
    DownloadPDFs false W urls results = Except.error "无法创建 PDF 目录"
    ∧ ∃ stats, DownloadPDFs true W urls results = Except.ok stats
        ∧ stats.Total = urls.length
        ∧ stats.Failed = results.countP (fun r => r.Status == "failed")
        ∧ stats.Errors.length = results.countP (fun r => r.Status == "failed") := by
  refine ⟨rfl, List.foldl collectStep (initStats urls.length) results, rfl, ?_, ?_, ?_⟩
  · exact (collect_foldl results (initStats urls.length)).1
  · have h := (collect_foldl results (initStats urls.length)).2.2.2.1
    simpa [initStats] using h
  · have h := (collect_foldl results (initStats urls.length)).2.2.2.2.2
    simpa [initStats] using h

/-- C9: for any list of N jobs and any worker count W ≥ 1 (with which
every job's outcome reaches the collector), the statistics satisfy
Total = N and Success + Skip + Failed = N for every completion order. -/
theorem C9_totals_partition (W : Nat) (urls : List String) (envs : List Env)
    (results : List DownloadResult)
    (hW : 1 ≤ W)
    (hlen : envs.length = urls.length)
    (hperm : results.Perm (envs.map fun e => (downloadSinglePDF e).res)) :
    ∃ stats, DownloadPDFs true W urls results = Except.ok stats
      ∧ stats.Total = urls.length
      ∧ stats.Success + stats.Skip + stats.Failed = urls.length := by
  refine ⟨List.foldl collectStep (initStats urls.length) results, rfl, ?_, ?_⟩
  · exact (collect_foldl results (initStats urls.length)).1
  · obtain ⟨-, hsu, hsk, hfa, -, -⟩ := collect_foldl results (initStats urls.length)
    have htri : ∀ x ∈ results, x.Status = "success" ∨ x.Status = "skip"
        ∨ x.Status = "failed" := by
      intro x hx
      have hx2 := hperm.mem_iff.mp hx
      obtain ⟨e, -, rfl⟩ := List.mem_map.mp hx2
      exact run_status_cases e
    have hcount := countP_trichotomy results htri
    have hres_len : results.length = urls.length := by
      rw [hperm.length_eq, List.length_map, hlen]
    rw [hsu, hsk, hfa]
    simp only [initStats]
    omega

/-- C10: the byte total of the returned statistics is the sum of the
sizes of successful results only (a skip's size is never added, failures
add nothing), and the error list has exactly one entry per failed result
and none for success or skip. -/
theorem C10_size_and_errors (W : Nat) (urls : List String)
    (results : List DownloadResult) (stats : DownloadStats)
    (hok : DownloadPDFs true W urls results = Except.ok stats) :
    stats.TotalSize
        = ((results.filter fun r => r.Status == "success").map fun r => r.Size).sum
    ∧ stats.Errors.length = results.countP (fun r => r.Status == "failed")
    ∧ stats.Errors.length = stats.Failed := by
  have hstats : List.foldl collectStep (initStats urls.length) results = stats := by
    simpa [DownloadPDFs] using hok
  obtain ⟨-, -, -, hfa, hts, herr⟩ := collect_foldl results (initStats urls.length)
  subst hstats
  refine ⟨by simpa [initStats] using hts, by simpa [initStats] using herr, ?_⟩
  rw [hfa, herr]
  simp [initStats]

/-- A concrete resolver: the base page is parseable and relative
references resolve against the mirror host. -/
def r0 : Resolver :=
  ⟨true, fun s => some ("https://sci-hub.se" ++ s)⟩

/-- A page whose download container holds a plain anchor and a
"/download/" anchor, plus a generic .pdf anchor elsewhere. -/
def docA : Document :=
  { downloadAnchors := [some "/x.pdf", some "/download/y.pdf"]
    objects := []
    iframeSrcs := []
    anchorHrefs := ["/generic.pdf"]
    title := "t" }

/-- A page whose download container has no "/download/" link. -/
def docB : Document :=
  { downloadAnchors := [none, some "/first.html", some "/second.html"]
    objects := []
    iframeSrcs := []
    anchorHrefs := ["/generic.pdf"]
    title := "t" }

/-- No regexp match on the raw markup. -/
def raw0 : RawScan := ⟨none, none⟩

/-- A job environment whose every oracle cooperates: the run succeeds. -/
def envBase : Env :=
  { urlPath := some "/10.1000/xyz123"
    preFile := none
    pageResp := fun _ => HttpResp.ok 200
    pageRand := fun _ => 5
    pageGzip := false
    pageGzipOk := true
    pageReadOk := true
    parseOk := true
    htmlContent := ""
    doc := docA
    raw := raw0
    resolver := r0
    pdfResp := fun _ => HttpResp.ok 200
    pdfRand := fun _ => 7
    contentType := "application/pdf"
    tmpCreateOk := true
    pdfGzip := false
    pdfGzipOk := true
    pdfBody := [37, 80, 68, 70, 49]
    copyOk := true
    openOk := true
    readHeaderOk := true
    renameOk := true }

/-- Failure injected after the temporary file is written, before rename. -/
def envRenameFail : Env := { envBase with renameOk := false }

/-- A 200 payload whose body is an HTML error page, not a PDF. -/
def envHtmlBody : Env := { envBase with pdfBody := [60, 104, 116, 109, 108] }

/-- A pre-existing 4-byte file at the final path. -/
def envPre : Env := { envBase with preFile := some [37, 80, 68, 70] }

/-- A page endpoint answering 404 on every attempt. -/
def env404 : Env := { envBase with pageResp := fun _ => HttpResp.ok 404 }

/-- A page endpoint answering 403 on every attempt. -/
def envPage403 : Env := { envBase with pageResp := fun _ => HttpResp.ok 403 }

/-- A payload endpoint answering 403 on every attempt. -/
def envPdf403 : Env := { envBase with pdfResp := fun _ => HttpResp.ok 403 }

theorem C1_atomic_commit_witness :
    (downloadSinglePDF envRenameFail).finalFile = none
    ∧ (downloadSinglePDF envRenameFail).tmpLeft = false :=
  (C1_atomic_commit envRenameFail rfl).2 (by decide)

theorem C6_integrity_gate_witness :
    (downloadSinglePDF envHtmlBody).res.Status = "failed"
    ∧ (downloadSinglePDF envHtmlBody).res.Status ≠ "success" :=
  C6_integrity_gate envHtmlBody rfl (Or.inr (by decide))

theorem C7_skip_no_network_witness :
    (downloadSinglePDF envPre).res.Status = "skip"
    ∧ (downloadSinglePDF envPre).res.Size = (([37, 80, 68, 70] : List Nat).length : Int)
    ∧ (downloadSinglePDF envPre).res.Filename
        = sanitizeFilename (trimLeadingSlash "/10.1000/xyz123") ++ ".pdf"
    ∧ (downloadSinglePDF envPre).pageAttempts = 0
    ∧ (downloadSinglePDF envPre).pdfAttempts = 0
    ∧ sanitizeFilename (trimLeadingSlash "/10.1000/xyz123") ++ ".pdf"
        = "10.1000_xyz123.pdf" :=
  C7_skip_no_network envPre "/10.1000/xyz123" [37, 80, 68, 70] rfl rfl

theorem C4_page404_three_attempts_witness :
    (downloadSinglePDF env404).pageAttempts = 3
    ∧ (downloadSinglePDF env404).pageAttempts ≠ 2 :=
  ⟨(C4_page404_three_attempts env404 "/10.1000/xyz123" rfl rfl fun _ => rfl).1,
   (C4_page404_three_attempts env404 "/10.1000/xyz123" rfl rfl fun _ => rfl).2.1⟩

theorem C3_retry_ceiling_403_witness :
    ((downloadSinglePDF envPage403).pageAttempts = 3
      ∧ (downloadSinglePDF envPage403).res.Error = "页面请求失败: HTTP 403 (已重试 3 次)"
      ∧ (downloadSinglePDF envPage403).pageWaits = [2005, 4005])
    ∧ ((downloadSinglePDF envPdf403).pdfAttempts = 3
      ∧ (downloadSinglePDF envPdf403).res.Error = "PDF 下载失败: HTTP 403 (已重试 3 次)"
      ∧ (downloadSinglePDF envPdf403).pdfWaits = [2007, 4007]) := by
  have h := C3_retry_ceiling_403 envPage403 envPdf403 "/10.1000/xyz123" "/10.1000/xyz123"
    rfl rfl (fun _ => rfl) (fun _ => show (5 : Nat) < 2000 by norm_num)
    rfl rfl rfl rfl rfl rfl (by decide) (fun _ => rfl)
    (fun _ => show (7 : Nat) < 2000 by norm_num)
  exact ⟨⟨h.1.1, h.1.2.2.1, h.1.2.2.2.1⟩, ⟨h.2.1, h.2.2.2.1, h.2.2.2.2.1⟩⟩

theorem C2_download_container_precedence_witness :
    (∃ h2, some h2 ∈ docA.downloadAnchors
      ∧ extractPDFURL r0 docA raw0 = resolveURL r0 h2
      ∧ strContains (extractPDFURL r0 docA raw0) "/download/" = true)
    ∧ extractPDFURL r0 docB raw0 = resolveURL r0 "/first.html" := by
  constructor
  · exact C2_download_container_precedence.1 r0 docA raw0 "/download/y.pdf"
      rfl (by decide) (by decide) (by decide)
  · refine C2_download_container_precedence.2 r0 docB raw0 "/first.html" rfl ?_ (by decide)
    intro href hmem
    simp only [docB, List.mem_cons, List.not_mem_nil, or_false, reduceCtorEq,
      false_or, Option.some.injEq] at hmem
    rcases hmem with rfl | rfl <;> decide

theorem C5_strict_strategy_order_witness :
    extractPDFURL r0 docA raw0 = firstNonEmpty (strategyResults r0 docA raw0) :=
  C5_strict_strategy_order r0 docA raw0 rfl

/-- Ten identifiers for the worker-count scenario of the spec. -/
def urls10 : List String :=
  ["u1", "u2", "u3", "u4", "u5", "u6", "u7", "u8", "u9", "u10"]

/-- Ten job environments (each resolving to a skip). -/
def envs10 : List Env := List.replicate 10 envPre

/-- The ten job results in one completion order. -/
def results10 : List DownloadResult :=
  envs10.map fun e => (downloadSinglePDF e).res

theorem C9_totals_partition_witness :
    ∃ stats, DownloadPDFs true 3 urls10 results10 = Except.ok stats
      ∧ stats.Total = urls10.length
      ∧ stats.Success + stats.Skip + stats.Failed = urls10.length :=
  C9_totals_partition 3 urls10 envs10 results10 (by norm_num) (by decide)
    (List.Perm.refl _)

/-- A mixed result list: one success, one skip, one failure. -/
def resultsMixed : List DownloadResult :=
  [⟨"success", "a.pdf", 5, "a", ""⟩, ⟨"skip", "b.pdf", 3, "b", ""⟩,
   ⟨"failed", "c.pdf", 0, "c", "x"⟩]

theorem C10_size_and_errors_witness :
    (List.foldl collectStep (initStats urls10.length) resultsMixed).TotalSize
        = ((resultsMixed.filter fun r => r.Status == "success").map fun r => r.Size).sum
    ∧ (List.foldl collectStep (initStats urls10.length) resultsMixed).Errors.length
        = resultsMixed.countP (fun r => r.Status == "failed")
    ∧ (List.foldl collectStep (initStats urls10.length) resultsMixed).Errors.length
        = (List.foldl collectStep (initStats urls10.length) resultsMixed).Failed :=
  C10_size_and_errors 3 urls10 resultsMixed
    (List.foldl collectStep (initStats urls10.length) resultsMixed) rfl

end DoiHive
